import Mathlib

/-!
A formalization of the obsidian-syllable-counter plugin (src/main.ts), as a
shallow embedding in Lean 4.

The two components modelled here are:

* the syllable estimator `countSyllables` (src/main.ts lines 340-400), a pure
  function from a line of text to a syllable count, and
* the annotation synchronizer `updateSyllableCounts` (src/main.ts lines
  230-338), a stateful pass that rebuilds per-line markers.

Strings are modelled as `List Char` at the core (with `String` wrappers), and
the synchronizer as an explicit state-passing function over a `SyncState`
record, with the editor/renderer environment (editor presence, document lines,
rendered line elements, visible-range geometry, and a possible mid-pass
exception) supplied as an explicit `PassEnv` record.
-/

namespace SyllableCounter

/-! ## Syllable estimator: normalization

`word.toLowerCase().replace(/[^a-z]/g, ' ')` from src/main.ts line 343,
modelled character-wise over ASCII: uppercase ASCII letters are shifted to
lowercase, and every character that is not a lowercase letter afterwards is
replaced by a space. -/

/-- ASCII lowercasing of one character (the effect of `toLowerCase` on the
characters relevant to the `[^a-z]` filter). -/
def toLowerAscii (c : Char) : Char :=
  if 'A' ≤ c ∧ c ≤ 'Z' then Char.ofNat (c.toNat + 32) else c

/-- Is `c` a lowercase ASCII letter (the class `[a-z]`)? -/
def isLowerAlpha (c : Char) : Bool :=
  'a' ≤ c && c ≤ 'z'

/-- One character of `toLowerCase().replace(/[^a-z]/g, ' ')`. -/
def normalizeChar (c : Char) : Char :=
  let c2 := toLowerAscii c
  if isLowerAlpha c2 then c2 else ' '

/-- The normalization of src/main.ts line 343 (before the trim). -/
def normalize (s : List Char) : List Char :=
  s.map normalizeChar

/-! ## Tokenization

After normalization every character is either a lowercase letter or a space,
so `trim()` followed by `split(/\s+/)` (src/main.ts lines 343 and 348),
together with the `if (!word) return 0` and `if (!w) continue` guards that
skip empty strings, amounts to: split on maximal runs of spaces and keep the
nonempty tokens. `tokenizeAux l acc` scans `l` with `acc` the reversed
current token. -/

def tokenizeAux : List Char → List Char → List (List Char)
  | [], acc => if acc = [] then [] else [acc.reverse]
  | c :: cs, acc =>
    if c = ' ' then
      if acc = [] then tokenizeAux cs []
      else acc.reverse :: tokenizeAux cs []
    else tokenizeAux cs (c :: acc)

/-- The nonempty tokens of a normalized line. -/
def tokenize (l : List Char) : List (List Char) :=
  tokenizeAux l []

/-! ## Per-token syllable count -/

/-- `const vowels = 'aeiouy'` (src/main.ts line 364). -/
def isVowel (c : Char) : Bool :=
  c = 'a' || c = 'e' || c = 'i' || c = 'o' || c = 'u' || c = 'y'

/-- The vowel-group loop of src/main.ts lines 365-373: a unit is counted at
each vowel not preceded by a vowel; the second argument is `isPrevVowel`. -/
def countGroupsAux : List Char → Bool → Nat
  | [], _ => 0
  | c :: cs, prev =>
    (if isVowel c && !prev then 1 else 0) + countGroupsAux cs (isVowel c)

/-- Number of maximal vowel runs in a word (`isPrevVowel` starts false). -/
def countVowelGroups (w : List Char) : Nat :=
  countGroupsAux w false

/-- `w.endsWith('e')` (src/main.ts line 378). -/
def endsWithE (w : List Char) : Bool :=
  match w.reverse with
  | 'e' :: _ => true
  | _ => false

/-- `w.endsWith('le')` (src/main.ts lines 378 and 383). -/
def endsWithLE (w : List Char) : Bool :=
  match w.reverse with
  | 'e' :: 'l' :: _ => true
  | _ => false

/-- `vowels.includes(w[w.length - 3])` (src/main.ts line 383); the index is
in range whenever `w.length > 2`, which guards it in the source. -/
def thirdFromEndIsVowel (w : List Char) : Bool :=
  match w.reverse.get? 2 with
  | some c => isVowel c
  | none => false

/-- Silent-e adjustment, src/main.ts lines 378-380:
`if (w.endsWith('e') && syllables > 1 && !w.endsWith('le')) syllables--`. -/
def silentEAdjust (w : List Char) (s : Nat) : Nat :=
  if endsWithE w && decide (1 < s) && !endsWithLE w then s - 1 else s

/-- Consonant+le adjustment, src/main.ts lines 383-385:
`if (w.endsWith('le') && w.length > 2 && !vowels.includes(w[w.length - 3])) syllables++`. -/
def leAdjust (w : List Char) (s : Nat) : Nat :=
  if endsWithLE w && decide (2 < w.length) && !thirdFromEndIsVowel w then s + 1 else s

/-- `if (syllables === 0) syllables = 1` (src/main.ts lines 388-390). -/
def floorOne (s : Nat) : Nat :=
  if s = 0 then 1 else s

/-- The per-token body of the loop at src/main.ts lines 351-393: single
letters count 1 (lines 358-361); otherwise vowel groups, then the silent-e
decrement, then the consonant+le increment, then the floor at 1. -/
def tokenSyllables (w : List Char) : Nat :=
  if w.length = 1 then 1
  else floorOne (leAdjust w (silentEAdjust w (countVowelGroups w)))

/-- `countSyllables` over a list of characters: normalize, tokenize, sum the
per-token counts (src/main.ts lines 340-400). -/
def countSyllablesList (s : List Char) : Nat :=
  ((tokenize (normalize s)).map tokenSyllables).sum

/-- The body of `countSyllables` inside its `try` (src/main.ts lines 342-395)
with the possibility of an internal exception made explicit in the type: every
operation of the body (lowercasing, the regex replace, trim, split, the loops)
is total, so the embedded body always returns `Except.ok`. -/
def countSyllablesChecked (s : String) : Except String Nat :=
  Except.ok (countSyllablesList s.data)

/-- The `catch` clause of src/main.ts lines 396-399: an error result becomes
the value 0. -/
def recover : Except String Nat → Nat
  | Except.ok n => n
  | Except.error _ => 0

/-- `countSyllables` as exposed to the caller: the checked body with the
catch-to-0 handler (src/main.ts lines 340-400). -/
def countSyllables (s : String) : Nat :=
  recover (countSyllablesChecked s)

/-- The per-token adjustment pipeline exactly as the specification words it
(§4.1 steps 4a, 4b and the floor): first the silent-e decrement when the
token ends in `e`, the running count exceeds 1 and the token does not end in
`le`; then the increment when the token ends in `le`, has length greater
than 2 and the character three positions from the end is not a vowel; then
the count is floored at 1. Stated for comparison with `tokenSyllables`. -/
def tokenSyllablesSpec (w : List Char) : Nat :=
  let afterA :=
    if endsWithE w = true ∧ 1 < countVowelGroups w ∧ endsWithLE w = false
    then countVowelGroups w - 1 else countVowelGroups w
  let afterB :=
    if endsWithLE w = true ∧ 2 < w.length ∧ thirdFromEndIsVowel w = false
    then afterA + 1 else afterA
  max 1 afterB

/-! ## Annotation synchronizer

The pass `updateSyllableCounts` (src/main.ts lines 230-338) is modelled as an
explicit state-passing function. The editor/renderer environment that the
pass reads (editor presence, the document's lines from `editor.getValue()`,
the rendered `.cm-line` elements with their `offsetTop`, the result of
`getVisibleLineRange`, and whether the body throws mid-pass) is one explicit
record; the plugin's mutable fields `isProcessing`, `pendingUpdate` and
`syllableMarkers` form the state record. -/

/-- The plugin settings record (src/main.ts lines 3-8). -/
structure SyllableCounterSettings where
  maxLinesToProcess : Nat
  updateDebounceInterval : Nat
  onlyVisibleRange : Bool
  showZeroSyllables : Bool
deriving DecidableEq

/-- `DEFAULT_SETTINGS` (src/main.ts lines 10-15). -/
def DEFAULT_SETTINGS : SyllableCounterSettings :=
  ⟨500, 500, true, false⟩

/-- One emitted syllable marker: the line it annotates, the computed count,
its `textContent`, and its `style.top` offset (src/main.ts lines 303-316). -/
structure Marker where
  lineIndex : Nat
  count : Nat
  displayText : String
  offsetTop : Int
deriving DecidableEq

/-- `marker.textContent` (src/main.ts line 305):
the count followed by `syllable` when it equals 1, else `syllables`. -/
def displayTextFor (syllableCount : Nat) : String :=
  toString syllableCount ++ " " ++
    (if syllableCount = 1 then "syllable" else "syllables")

/-- The environment one pass reads from the editor and renderer: whether
`view.editor` is present (line 246), whether the `.cm-editor` element is
present (line 252), the document's lines (`editor.getValue().split('\n')`,
lines 287-288), the `offsetTop` of each rendered `.cm-line` element (line
259), the result of `getVisibleLineRange` (lines 192-228, abstracted here as
the renderer-geometry answer, `none` when visibility cannot be determined),
and whether the body throws somewhere mid-pass (caught at line 323). -/
structure PassEnv where
  hasEditor : Bool
  hasEditorElement : Bool
  lines : List String
  lineElements : List Int
  visibleRange : Option (Nat × Nat)
  throwsMidPass : Bool
deriving DecidableEq

/-- The mutable synchronizer state (src/main.ts lines 19-24):
`isProcessing`, `pendingUpdate` and the `syllableMarkers` array. -/
structure SyncState where
  isProcessing : Bool
  pendingUpdate : Bool
  syllableMarkers : List Marker
deriving DecidableEq

/-- The candidate line range of a pass (src/main.ts lines 265-281):
`startLine = 0`, `endLine = min(lineElements.length - 1, maxLinesToProcess - 1)`;
when `onlyVisibleRange` is set and the visible range is available it replaces
the default, truncated so that its span never exceeds `maxLinesToProcess`. -/
def candidateRange (s : SyllableCounterSettings) (env : PassEnv) : Nat × Nat :=
  let startLine := 0
  let endLine := min (env.lineElements.length - 1) (s.maxLinesToProcess - 1)
  if s.onlyVisibleRange = true then
    match env.visibleRange with
    | some (vs, ve) =>
      if ve - vs + 1 > s.maxLinesToProcess
      then (vs, vs + s.maxLinesToProcess - 1)
      else (vs, ve)
    | none => (startLine, endLine)
  else (startLine, endLine)

/-- One iteration of the loop at src/main.ts lines 291-318: skip indices
beyond the text-line count or the element count (line 292), estimate the
line, and emit a marker when the count is positive or `showZeroSyllables` is
enabled (line 298), positioned at the line element's `offsetTop`. -/
def markerForIndex (s : SyllableCounterSettings) (env : PassEnv) (index : Nat) :
    Option Marker :=
  if env.lines.length ≤ index ∨ env.lineElements.length ≤ index then none
  else
    let syllableCount := countSyllables (env.lines.getD index "")
    if 0 < syllableCount ∨ s.showZeroSyllables = true then
      some ⟨index, syllableCount, displayTextFor syllableCount,
            env.lineElements.getD index 0⟩
    else none

/-- The full marker set built by the loop over the candidate range
(src/main.ts lines 291-318). -/
def buildMarkers (s : SyllableCounterSettings) (env : PassEnv) : List Marker :=
  let r := candidateRange s env
  (List.range' r.1 (r.2 + 1 - r.1)).filterMap (markerForIndex s env)

/-- The `try` block of the pass (src/main.ts lines 240-322): clear the
markers, abort early when the editor, the editor element or the line
elements are unavailable (each abort sets `isProcessing = false` before
returning, lines 246-263), stop with cleared markers when an exception is
thrown mid-pass (caught at line 323), and otherwise install the freshly
built marker set. -/
def runPassBody (s : SyllableCounterSettings) (env : PassEnv) (st : SyncState) :
    SyncState :=
  let st1 : SyncState := { st with syllableMarkers := [] }
  if env.hasEditor = false then { st1 with isProcessing := false }
  else if env.hasEditorElement = false then { st1 with isProcessing := false }
  else if env.lineElements.length = 0 then { st1 with isProcessing := false }
  else if env.throwsMidPass = true then st1
  else { st1 with syllableMarkers := buildMarkers s env }

/-- The fixed delay of the rescheduled follow-up pass (src/main.ts line 335). -/
def followupDelayMs : Nat := 50

/-- The `finally` block (src/main.ts lines 325-337): release `isProcessing`
and, when `pendingUpdate` was set during the pass, schedule exactly one
follow-up pass after `followupDelayMs`; the returned list holds the delays
of the scheduled follow-ups. -/
def passFinally (st : SyncState) : SyncState × List Nat :=
  ({ st with isProcessing := false },
   if st.pendingUpdate = true then [followupDelayMs] else [])

/-- One invocation of `updateSyllableCounts` (src/main.ts lines 230-338):
when a pass is in flight it only sets `pendingUpdate` and returns (lines
231-235); otherwise it takes the processing flag, clears `pendingUpdate`,
runs the body and the `finally` block. Returns the new state and the list
of scheduled follow-up delays. -/
def updateSyllableCounts (s : SyllableCounterSettings) (env : PassEnv)
    (st : SyncState) : SyncState × List Nat :=
  if st.isProcessing = true then ({ st with pendingUpdate := true }, [])
  else passFinally (runPassBody s env
    { st with isProcessing := true, pendingUpdate := false })

/-- The state after one trigger of `updateSyllableCounts`. -/
def triggerStep (s : SyllableCounterSettings) (env : PassEnv) (st : SyncState) :
    SyncState :=
  (updateSyllableCounts s env st).1

/-! ## Estimator lemmas -/

theorem floorOne_eq_max (s : Nat) : floorOne s = max 1 s := by
  unfold floorOne
  split <;> omega

theorem one_le_tokenSyllables (w : List Char) : 1 ≤ tokenSyllables w := by
  unfold tokenSyllables
  split
  · exact Nat.le_refl 1
  · rw [floorOne_eq_max]
    exact Nat.le_max_left 1 _

theorem normalizeChar_space : normalizeChar ' ' = ' ' := by decide

theorem normalizeChar_of_isWhitespace (c : Char) (h : c.isWhitespace = true) :
    normalizeChar c = ' ' := by
  have h2 := h
  simp only [Char.isWhitespace, Bool.or_eq_true, decide_eq_true_eq] at h2
  rcases h2 with ((h2 | h2) | h2) | h2 <;> subst h2 <;> decide

theorem tokenizeAux_spaces (l : List Char) (h : ∀ c ∈ l, c = ' ') :
    tokenizeAux l [] = [] := by
  induction l with
  | nil => rfl
  | cons c cs ih =>
    have hc : c = ' ' := h c (List.mem_cons_self c cs)
    subst hc
    simp only [tokenizeAux, if_pos rfl]
    exact ih fun d hd => h d (List.mem_cons_of_mem _ hd)

theorem tokenizeAux_append_space (xs ys : List Char) :
    ∀ acc, tokenizeAux (xs ++ ' ' :: ys) acc =
      tokenizeAux xs acc ++ tokenizeAux ys [] := by
  induction xs with
  | nil =>
    intro acc
    by_cases h : acc = [] <;> simp [tokenizeAux, h]
  | cons c cs ih =>
    intro acc
    by_cases hc : c = ' '
    · by_cases ha : acc = [] <;> simp [tokenizeAux, hc, ha, ih]
    · simp [tokenizeAux, hc, ih]

theorem tokenize_append_space (xs ys : List Char) :
    tokenize (xs ++ ' ' :: ys) = tokenize xs ++ tokenize ys :=
  tokenizeAux_append_space xs ys []

theorem countSyllablesList_append_space (a b : List Char) :
    countSyllablesList (a ++ ' ' :: b) =
      countSyllablesList a + countSyllablesList b := by
  unfold countSyllablesList
  have hn : normalize (a ++ ' ' :: b) = normalize a ++ ' ' :: normalize b := by
    simp [normalize, normalizeChar_space]
  rw [hn, tokenize_append_space, List.map_append, List.sum_append]

theorem string_data_append (a b : String) : (a ++ b).data = a.data ++ b.data :=
  rfl

/-! ## Claims about the estimator -/

/-- C1 counterexample: the specification's example set fails on the code,
because `countSyllables "apple"` evaluates to 3, not 2 (the silent-e
decrement is skipped for a token ending in `le`, and the le-increment
raises 2 to 3). -/
theorem estimate_spec_examples_false :
    ¬ (countSyllables "cat" = 1 ∧ countSyllables "banana" = 3 ∧
       countSyllables "apple" = 2 ∧ countSyllables "the" = 1 ∧
       countSyllables "a" = 1) := by
  decide

/-- C1 (amended): the estimator's example values are
`estimate "cat" = 1`, `estimate "banana" = 3`, `estimate "apple" = 3`
(no silent-e decrement since the token ends in `le`; the le-increment
applies), `estimate "the" = 1`, and `estimate "a" = 1`. -/
theorem estimate_examples :
    countSyllables "cat" = 1 ∧ countSyllables "banana" = 3 ∧
    countSyllables "apple" = 3 ∧ countSyllables "the" = 1 ∧
    countSyllables "a" = 1 := by
  decide

/-- C2: the estimate is a natural number (hence never negative), the empty
string estimates to 0, a whitespace-only line estimates to 0, and every
nonempty token contributes at least 1 to the sum. -/
theorem estimate_nonneg_empty_token_bounds :
    (∀ s : String, 0 ≤ countSyllables s) ∧
    countSyllables "" = 0 ∧
    (∀ s : String, (∀ c ∈ s.data, c.isWhitespace = true) → countSyllables s = 0) ∧
    (∀ w : List Char, w ≠ [] → 1 ≤ tokenSyllables w) := by
  refine ⟨fun s => Nat.zero_le _, rfl, fun s hs => ?_, fun w _ => one_le_tokenSyllables w⟩
  have hsp : ∀ c ∈ normalize s.data, c = ' ' := by
    intro c hc
    rcases List.mem_map.mp hc with ⟨d, hd, hdc⟩
    rw [← hdc]
    exact normalizeChar_of_isWhitespace d (hs d hd)
  show recover (countSyllablesChecked s) = 0
  simp [recover, countSyllablesChecked, countSyllablesList, tokenize,
    tokenizeAux_spaces _ hsp]

/-- C2 witness: a whitespace-only line estimates to 0, and a concrete
nonempty token contributes at least 1. -/
theorem estimate_nonneg_empty_token_bounds_holds :
    countSyllables " " = 0 ∧ 1 ≤ tokenSyllables ['c', 'a', 't'] :=
  ⟨estimate_nonneg_empty_token_bounds.2.2.1 " " (by decide),
   estimate_nonneg_empty_token_bounds.2.2.2 ['c', 'a', 't'] (by decide)⟩

/-- C3: for every token of length at least 2, the per-token count of the
code equals the specification's pipeline: vowel groups, then the silent-e
decrement, then the consonant+le increment, then the floor at 1, in that
order. -/
theorem tokenSyllables_eq_spec_pipeline (w : List Char) (h : 2 ≤ w.length) :
    tokenSyllables w = tokenSyllablesSpec w := by
  have hne : ¬ w.length = 1 := by omega
  unfold tokenSyllables tokenSyllablesSpec silentEAdjust leAdjust
  rw [if_neg hne, floorOne_eq_max]
  congr 1
  by_cases hE : endsWithE w <;> by_cases hLE : endsWithLE w <;>
    by_cases hV : thirdFromEndIsVowel w <;> by_cases hG : 1 < countVowelGroups w <;>
      by_cases hL : 2 < w.length <;> simp_all

/-- C3 witness: the pipeline equality at the concrete token `apple`. -/
theorem tokenSyllables_eq_spec_pipeline_holds :
    tokenSyllables ['a', 'p', 'p', 'l', 'e'] =
      tokenSyllablesSpec ['a', 'p', 'p', 'l', 'e'] :=
  tokenSyllables_eq_spec_pipeline ['a', 'p', 'p', 'l', 'e'] (by decide)

/-- C8: the estimator never raises to its caller: for every input string the
checked body returns `Except.ok` with the value the caller receives, and the
catch handler maps any internal error to the value 0. -/
theorem estimate_never_raises :
    (∀ s : String, countSyllablesChecked s = Except.ok (countSyllables s)) ∧
    (∀ e : String, recover (Except.error e) = 0) :=
  ⟨fun _ => rfl, fun _ => rfl⟩

/-- C9: the estimator is additive over whitespace-separated concatenation:
joining two strings with a space estimates to the sum of the estimates. -/
theorem estimate_additive (a b : String) :
    countSyllables (a ++ " " ++ b) = countSyllables a + countSyllables b := by
  show recover (countSyllablesChecked _) = _
  simp only [recover, countSyllablesChecked, string_data_append]
  rw [List.append_assoc, List.singleton_append]
  exact countSyllablesList_append_space a.data b.data

/-! ## Synchronizer lemmas -/

theorem triggerStep_of_processing (s : SyllableCounterSettings) (env : PassEnv)
    (t : SyncState) (ht : t.isProcessing = true) :
    triggerStep s env t = { t with pendingUpdate := true } := by
  unfold triggerStep updateSyllableCounts
  rw [if_pos ht]

theorem updateSyllableCounts_releases (s : SyllableCounterSettings) (env : PassEnv)
    (st : SyncState) (h : st.isProcessing = false) :
    ((updateSyllableCounts s env st).1).isProcessing = false := by
  unfold updateSyllableCounts
  rw [if_neg (by simp [h])]
  rfl

theorem runPassBody_markers (s : SyllableCounterSettings) (env : PassEnv)
    (t1 t2 : SyncState) :
    (runPassBody s env t1).syllableMarkers = (runPassBody s env t2).syllableMarkers := by
  unfold runPassBody
  by_cases h1 : env.hasEditor = false <;>
    by_cases h2 : env.hasEditorElement = false <;>
      by_cases h3 : env.lineElements.length = 0 <;>
        by_cases h4 : env.throwsMidPass = true <;>
          simp [h1, h2, h3, h4]

/-! ## Claims about the synchronizer -/

/-- C4: a trigger arriving while a pass is in flight only sets
`pendingUpdate` and returns, doing no work and scheduling nothing; and for
any number k ≥ 1 of triggers arriving during one in-flight pass, the
`finally` block of that pass schedules exactly one follow-up pass, after the
fixed 50ms delay, not one per trigger. -/
theorem trigger_coalescing (s : SyllableCounterSettings) (env : PassEnv)
    (st : SyncState) (h : st.isProcessing = true) :
    updateSyllableCounts s env st = ({ st with pendingUpdate := true }, []) ∧
    (∀ k, 1 ≤ k →
      passFinally ((triggerStep s env)^[k] st) =
        ({ st with isProcessing := false, pendingUpdate := true },
         [followupDelayMs])) := by
  have hiter : ∀ k, 1 ≤ k →
      (triggerStep s env)^[k] st = { st with pendingUpdate := true } := by
    intro k hk
    induction k with
    | zero => omega
    | succ n ih =>
      rcases Nat.eq_zero_or_pos n with hn | hn
      · subst hn
        rw [Function.iterate_one]
        exact triggerStep_of_processing s env st h
      · rw [Function.iterate_succ_apply', ih hn]
        exact triggerStep_of_processing s env _ h
  refine ⟨?_, fun k hk => ?_⟩
  · unfold updateSyllableCounts
    rw [if_pos h]
  · rw [hiter k hk]
    rfl

/-- C4 witness: three triggers during a concrete in-flight pass leave one
pending flag, and the finishing pass schedules exactly one 50ms follow-up. -/
theorem trigger_coalescing_holds :
    passFinally ((triggerStep ⟨500, 500, true, false⟩
        ⟨true, true, [], [], none, false⟩)^[3] ⟨true, false, []⟩) =
      (⟨false, true, []⟩, [followupDelayMs]) :=
  (trigger_coalescing ⟨500, 500, true, false⟩ ⟨true, true, [], [], none, false⟩
    ⟨true, false, []⟩ rfl).2 3 (by decide)

/-- C5: for a document rendered as N ≥ 1 line elements, with
`onlyVisibleRange = false` and a positive `maxLinesToProcess`, the candidate
range of a pass is exactly [0, min(N, maxLinesToProcess) - 1]. -/
theorem candidateRange_default (s : SyllableCounterSettings) (env : PassEnv)
    (N : Nat) (hvis : s.onlyVisibleRange = false)
    (hN : env.lineElements.length = N) (hN1 : 1 ≤ N)
    (hM : 1 ≤ s.maxLinesToProcess) :
    candidateRange s env = (0, min N s.maxLinesToProcess - 1) := by
  have hmin : min (N - 1) (s.maxLinesToProcess - 1) =
      min N s.maxLinesToProcess - 1 := by omega
  simp [candidateRange, hvis, hN, hmin]

/-- C5 witness: a three-line document with the default 500-line limit yields
the candidate range [0, 2]. -/
theorem candidateRange_default_holds :
    candidateRange ⟨500, 500, false, false⟩
        ⟨true, true, ["x", "y", "z"], [0, 10, 20], none, false⟩ =
      (0, min 3 500 - 1) :=
  candidateRange_default ⟨500, 500, false, false⟩
    ⟨true, true, ["x", "y", "z"], [0, 10, 20], none, false⟩ 3 rfl rfl
    (by decide) (by decide)

/-- C6 (code behaviour at the failing input): for a line whose estimate is
0, no marker is emitted when `showZeroSyllables` is false; when it is true a
marker is emitted and its display text is the verbose `"0 syllables"` — the
code has no verbosity setting, so the terse `"0"` form of the claim is never
produced. -/
theorem zero_syllable_display (s : SyllableCounterSettings) (env : PassEnv)
    (index : Nat) (hl : index < env.lines.length)
    (he : index < env.lineElements.length)
    (h0 : countSyllables (env.lines.getD index "") = 0) :
    (s.showZeroSyllables = false → markerForIndex s env index = none) ∧
    (s.showZeroSyllables = true →
      markerForIndex s env index =
        some ⟨index, 0, "0 syllables", env.lineElements.getD index 0⟩) := by
  have hguard : ¬ (env.lines.length ≤ index ∨ env.lineElements.length ≤ index) := by
    omega
  have hdt : displayTextFor 0 = "0 syllables" := rfl
  constructor <;> intro hz <;>
    · unfold markerForIndex
      rw [if_neg hguard]
      simp only [h0, hz, hdt]
      simp

/-- C6 witness: the line `"!!!"` estimates to 0; with `showZeroSyllables`
enabled the emitted marker's display text is `"0 syllables"`, not `"0"`. -/
theorem zero_syllable_display_holds :
    markerForIndex ⟨500, 500, true, true⟩ ⟨true, true, ["!!!"], [0], none, false⟩ 0 =
      some ⟨0, 0, "0 syllables", 0⟩ :=
  (zero_syllable_display ⟨500, 500, true, true⟩
    ⟨true, true, ["!!!"], [0], none, false⟩ 0 (by decide) (by decide)
    (by decide)).2 rfl

/-- C7: two consecutive passes over the same document, geometry and settings
produce the same marker set (the same line indices, counts, display texts
and offsets). -/
theorem pass_idempotent (s : SyllableCounterSettings) (env : PassEnv)
    (st : SyncState) (h : st.isProcessing = false) :
    ((updateSyllableCounts s env (updateSyllableCounts s env st).1).1).syllableMarkers =
      ((updateSyllableCounts s env st).1).syllableMarkers := by
  have hrel := updateSyllableCounts_releases s env st h
  have e1 : ∀ t : SyncState, t.isProcessing = false →
      (updateSyllableCounts s env t).1.syllableMarkers =
        (runPassBody s env
          { t with isProcessing := true, pendingUpdate := false }).syllableMarkers := by
    intro t ht
    unfold updateSyllableCounts
    rw [if_neg (by simp [ht])]
    rfl
  rw [e1 _ hrel, e1 _ h]
  exact runPassBody_markers s env _ _

/-- C7 witness: two consecutive passes over a concrete one-line document
yield the same marker set. -/
theorem pass_idempotent_holds :
    ((updateSyllableCounts ⟨500, 500, false, false⟩
        ⟨true, true, ["cat"], [0], none, false⟩
        (updateSyllableCounts ⟨500, 500, false, false⟩
          ⟨true, true, ["cat"], [0], none, false⟩ ⟨false, false, []⟩).1).1).syllableMarkers =
      ((updateSyllableCounts ⟨500, 500, false, false⟩
        ⟨true, true, ["cat"], [0], none, false⟩ ⟨false, false, []⟩).1).syllableMarkers :=
  pass_idempotent ⟨500, 500, false, false⟩ ⟨true, true, ["cat"], [0], none, false⟩
    ⟨false, false, []⟩ rfl

/-- C10: every invocation that begins processing (finds `isProcessing`
false) ends with `isProcessing` false, on every path: missing editor,
missing editor element, no line elements, a mid-pass exception, or the
normal path. -/
theorem pass_releases_processing_flag (s : SyllableCounterSettings) (env : PassEnv)
    (st : SyncState) (h : st.isProcessing = false) :
    ((updateSyllableCounts s env st).1).isProcessing = false :=
  updateSyllableCounts_releases s env st h

/-- C10 witness: a pass that throws mid-way over a concrete environment
still releases the processing flag. -/
theorem pass_releases_processing_flag_holds :
    ((updateSyllableCounts ⟨500, 500, true, false⟩
        ⟨true, true, ["hi"], [0], none, true⟩ ⟨false, false, []⟩).1).isProcessing = false :=
  pass_releases_processing_flag ⟨500, 500, true, false⟩
    ⟨true, true, ["hi"], [0], none, true⟩ ⟨false, false, []⟩ rfl

end SyllableCounter
